import Mathlib

/-!
Verification of the hyperform `validityState` polyfill
(`src/polyfills/validityState.js`).

The per-control state visible to this module (current message-store
entry, presentation class list, `aria-invalid` attribute) is embedded as
an explicit `DomState` record; a form control is embedded as a `Control`
record carrying the results of the external constraint predicates
(`test_required`, `test_maxlength`, ...), the attribute values the
checkers read, and the results of the registered custom validators.
Each facet checker is a function `Control → DomState → Bool × DomState`
exactly following the JavaScript, and the `valid` getter threads the
state through the checkers in their fixed declaration order.
-/

namespace Hyperform

/-- A message-store entry: the message text plus the `is_custom` marker
that an externally supplied custom message carries. -/
structure Msg where
  text : String
  is_custom : Bool
deriving DecidableEq, Repr

/-- Wrapper configuration classes, as returned by
`get_wrapper(element).settings.classes`. -/
structure WrapperClasses where
  valid : String
  invalid : String
  validated : String
deriving DecidableEq, Repr

/-- A form control, as observed by the validity-state engine: the results
of the external constraint predicates (`true` = constraint satisfied,
mirroring `test_max`, `test_required`, ... from `../validators/`), the
attributes and properties the message derivation reads, the results of
the registered custom validators (`none` embeds a JavaScript
`undefined` return), and the external classifications
(`get_type`, `is_validation_candidate`, `get_wrapper`). -/
structure Control where
  html_element : Bool
  ctrl_id : Nat
  test_bad_input : Bool
  test_pattern : Bool
  test_max : Bool
  test_min : Bool
  test_step : Bool
  test_maxlength : Bool
  test_minlength : Bool
  test_type : Bool
  test_required : Bool
  custom_validators : List (Option Bool)
  ctrl_type : String
  title : String
  attr_min : Option String
  attr_max : Option String
  attr_maxlength : Option String
  attr_minlength : Option String
  value : String
  has_multiple : Bool
  is_select : Bool
  next_valid : Option String × Option String
  is_validation_candidate : Bool
  wrapper : Option WrapperClasses
deriving DecidableEq, Repr

/-- The control-scoped mutable state the engine writes: the message-store
entry, the presentation class list and the `aria-invalid` attribute. -/
structure DomState where
  store : Option Msg
  classes : List String
  aria_invalid : Option String
deriving DecidableEq, Repr

/-- `classList.add`: appends the token unless already present. -/
def classes_add (l : List String) (c : String) : List String :=
  if l.contains c then l else l ++ [c]

/-- `classList.remove`: drops the token. -/
def classes_remove (l : List String) (c : String) : List String :=
  l.filter (fun y => y != c)

/-- Modelled from the spec: the Message Store's `set` (the checkers call
it with a plain string, so the entry carries no custom marker). The
Message Store component itself is not under `src/`. -/
def message_store_set (s : DomState) (m : String) : DomState :=
  { s with store := some { text := m, is_custom := false } }

/-- Modelled from the spec: the Message Store's `get`; an absent entry
reads as an empty, unmarked message. -/
def message_store_get (s : DomState) : Msg :=
  s.store.getD { text := "", is_custom := false }

/-- Modelled from the spec: the Message Store's `delete`. -/
def message_store_delete (s : DomState) : DomState :=
  { s with store := none }

/-- Modelled from the spec: localization `translate(key) → template`,
embedded as the identity template (a missing key degrades to the visible
key itself). -/
def translate (key : String) : String :=
  key

/-- Modelled from the spec: `format(template, ...args)`; embedded
injectively as the template followed by the rendered argument list. -/
def sprintf (template : String) (args : List String) : String :=
  template ++ "(" ++ String.intercalate ", " args ++ ")"

/-- Modelled from the spec: numeric parsing helper used only to render a
message argument (`string_to_number`); a `none` attribute is a
JavaScript `null`. -/
def string_to_number (s : Option String) (ty : String) : String :=
  "number " ++ ty ++ " " ++ s.getD "null"

/-- Modelled from the spec: date parsing helper used only to render a
message argument (`string_to_date`). -/
def string_to_date (s : Option String) (ty : String) : String :=
  "date " ++ ty ++ " " ++ s.getD "null"

/-- Modelled from the spec: `unicode_string_length` counts
user-perceived characters, i.e. unicode code points (`String.length`
in Lean counts `Char`s, i.e. code points). -/
def unicode_string_length (s : String) : Nat :=
  s.length

/-- The loop in `customError`: `true` when some registered validator
returned an explicit `false`, scanning in registration order and
stopping there. -/
def first_explicit_false : List (Option Bool) → Bool
  | [] => false
  | some false :: _ => true
  | _ :: rest => first_explicit_false rest

/-- Message written by the `badInput` checker. -/
def badInput_message : String :=
  translate "Please match the requested type."

/-- Message written by the `patternMismatch` checker. -/
def patternMismatch_message (c : Control) : String :=
  if c.title != "" then
    sprintf (translate "PatternMismatchWithTitle") [c.title]
  else
    translate "PatternMismatch"

/-- Message written by the `rangeOverflow` checker: type-sensitive
rendering of `getAttribute('max')`. -/
def rangeOverflow_message (c : Control) : String :=
  if c.ctrl_type == "date" || c.ctrl_type == "datetime" ||
      c.ctrl_type == "datetime-local" then
    sprintf (translate "DateRangeOverflow") [string_to_date c.attr_max c.ctrl_type]
  else if c.ctrl_type == "time" then
    sprintf (translate "TimeRangeOverflow") [string_to_date c.attr_max c.ctrl_type]
  else
    sprintf (translate "NumberRangeOverflow") [string_to_number c.attr_max c.ctrl_type]

/-- Message written by the `rangeUnderflow` checker. The source reads
`element.getAttribute('max')` in all three branches — it renders the
`max` attribute, not `min`. -/
def rangeUnderflow_message (c : Control) : String :=
  if c.ctrl_type == "date" || c.ctrl_type == "datetime" ||
      c.ctrl_type == "datetime-local" then
    sprintf (translate "DateRangeUnderflow") [string_to_date c.attr_max c.ctrl_type]
  else if c.ctrl_type == "time" then
    sprintf (translate "TimeRangeUnderflow") [string_to_date c.attr_max c.ctrl_type]
  else
    sprintf (translate "NumberRangeUnderflow") [string_to_number c.attr_max c.ctrl_type]

/-- Message written by the `stepMismatch` checker, from the
`get_next_valid` bracketing pair: `sole = max` when `min === null`,
`sole = min` when `max === null`, two-value message otherwise. -/
def stepMismatch_message (c : Control) : String :=
  match c.next_valid with
  | (none, mx) => sprintf (translate "StepMismatchOneValue") [mx.getD "null"]
  | (some mn, none) => sprintf (translate "StepMismatchOneValue") [mn]
  | (some mn, some mx) => sprintf (translate "StepMismatch") [mn, mx]

/-- Message written by the `tooLong` checker: cites
`getAttribute('maxlength')` and the code-point length of the value. -/
def tooLong_message (c : Control) : String :=
  sprintf (translate "TextTooLong")
    [c.attr_maxlength.getD "null", toString (unicode_string_length c.value)]

/-- Message written by the `tooShort` checker. The source reads
`element.getAttribute('maxlength')` — it cites the `maxlength`
attribute, not `minlength`. -/
def tooShort_message (c : Control) : String :=
  sprintf (translate "Please lengthen this text to %l characters or more (you are currently using %l characters).")
    [c.attr_maxlength.getD "null", toString (unicode_string_length c.value)]

/-- Message written by the `typeMismatch` checker. -/
def typeMismatch_message (c : Control) : String :=
  if c.ctrl_type == "email" then
    if c.has_multiple then
      translate "Please enter a comma separated list of email addresses."
    else
      translate "InvalidEmail"
  else if c.ctrl_type == "url" then
    translate "InvalidURL"
  else if c.ctrl_type == "file" then
    translate "Please select a file of the correct type."
  else
    translate "Please use the appropriate format."

/-- Message written by the `valueMissing` checker. -/
def valueMissing_message (c : Control) : String :=
  if c.ctrl_type == "checkbox" then
    translate "CheckboxMissing"
  else if c.ctrl_type == "radio" then
    translate "RadioMissing"
  else if c.ctrl_type == "file" then
    if c.has_multiple then
      translate "Please select one or more files."
    else
      translate "FileMissing"
  else if c.is_select then
    translate "SelectMissing"
  else
    translate "ValueMissing"

/-- `validity_state_checkers.badInput`. -/
def badInput (c : Control) (s : DomState) : Bool × DomState :=
  let invalid := ! c.test_bad_input
  (invalid, if invalid then message_store_set s badInput_message else s)

/-- `validity_state_checkers.customError`: invalid when a custom
validator explicitly failed, or — with no such failure — when the
message store already holds a non-empty message carrying the
`is_custom` marker. Writes nothing. -/
def customError (c : Control) (s : DomState) : Bool × DomState :=
  let valid0 := ! first_explicit_false c.custom_validators
  let valid1 :=
    if valid0 then
      ! ((message_store_get s).text != "" && (message_store_get s).is_custom)
    else
      valid0
  (! valid1, s)

/-- `validity_state_checkers.patternMismatch`. -/
def patternMismatch (c : Control) (s : DomState) : Bool × DomState :=
  let invalid := ! c.test_pattern
  (invalid, if invalid then message_store_set s (patternMismatch_message c) else s)

/-- `validity_state_checkers.rangeOverflow`. -/
def rangeOverflow (c : Control) (s : DomState) : Bool × DomState :=
  let invalid := ! c.test_max
  (invalid, if invalid then message_store_set s (rangeOverflow_message c) else s)

/-- `validity_state_checkers.rangeUnderflow`. -/
def rangeUnderflow (c : Control) (s : DomState) : Bool × DomState :=
  let invalid := ! c.test_min
  (invalid, if invalid then message_store_set s (rangeUnderflow_message c) else s)

/-- `validity_state_checkers.stepMismatch`. -/
def stepMismatch (c : Control) (s : DomState) : Bool × DomState :=
  let invalid := ! c.test_step
  (invalid, if invalid then message_store_set s (stepMismatch_message c) else s)

/-- `validity_state_checkers.tooLong`. -/
def tooLong (c : Control) (s : DomState) : Bool × DomState :=
  let invalid := ! c.test_maxlength
  (invalid, if invalid then message_store_set s (tooLong_message c) else s)

/-- `validity_state_checkers.tooShort`. -/
def tooShort (c : Control) (s : DomState) : Bool × DomState :=
  let invalid := ! c.test_minlength
  (invalid, if invalid then message_store_set s (tooShort_message c) else s)

/-- `validity_state_checkers.typeMismatch`. -/
def typeMismatch (c : Control) (s : DomState) : Bool × DomState :=
  let invalid := ! c.test_type
  (invalid, if invalid then message_store_set s (typeMismatch_message c) else s)

/-- `validity_state_checkers.valueMissing`. -/
def valueMissing (c : Control) (s : DomState) : Bool × DomState :=
  let invalid := ! c.test_required
  (invalid, if invalid then message_store_set s (valueMissing_message c) else s)

/-- The fixed evaluation order of `validity_state_checkers`: the
object's property insertion order, which `for..in` reproduces. -/
def checker_order : List (Control → DomState → Bool × DomState) :=
  [badInput, customError, patternMismatch, rangeOverflow, rangeUnderflow,
   stepMismatch, tooLong, tooShort, typeMismatch, valueMissing]

/-- The `for..in` loop inside the `valid` getter: run the checkers in
order, stopping at the first to report failure; `true` means some
checker failed. -/
def run_checkers (c : Control) : List (Control → DomState → Bool × DomState) → DomState → Bool × DomState
  | [], s => (false, s)
  | ch :: rest, s =>
    if (ch c s).1 then (true, (ch c s).2) else run_checkers c rest (ch c s).2

/-- `wrapper && wrapper.settings.classes.valid || 'hf-valid'`. -/
def valid_class_of (c : Control) : String :=
  match c.wrapper with
  | some w => if w.valid != "" then w.valid else "hf-valid"
  | none => "hf-valid"

/-- `wrapper && wrapper.settings.classes.invalid || 'hf-invalid'`. -/
def invalid_class_of (c : Control) : String :=
  match c.wrapper with
  | some w => if w.invalid != "" then w.invalid else "hf-invalid"
  | none => "hf-invalid"

/-- `wrapper && wrapper.settings.classes.validated || 'hf-validated'`. -/
def validated_class_of (c : Control) : String :=
  match c.wrapper with
  | some w => if w.validated != "" then w.validated else "hf-validated"
  | none => "hf-validated"

/-- The `valid` getter: mark the control validated, run the checkers in
fixed order when the control is a validation candidate, and apply the
invalid or valid presentation outcome. -/
def valid_get (c : Control) (s : DomState) : Bool × DomState :=
  let validClass := valid_class_of c
  let invalidClass := invalid_class_of c
  let validatedClass := validated_class_of c
  let s1 : DomState := { s with classes := classes_add s.classes validatedClass }
  let r :=
    if c.is_validation_candidate then
      run_checkers c checker_order s1
    else
      (false, s1)
  if r.1 then
    (false,
     { r.2 with
       classes := classes_remove (classes_add r.2.classes invalidClass) validClass,
       aria_invalid := some "true" })
  else
    (true,
     { message_store_delete r.2 with
       classes := classes_add (classes_remove r.2.classes invalidClass) validClass,
       aria_invalid := some "false" })

/-- The identity-keyed cache `ValidityState.cache`, with instances named
by allocation order. -/
structure VSCache where
  entries : List (Nat × Nat)
  next_id : Nat
deriving DecidableEq, Repr

/-- The empty cache. -/
def VSCache.empty : VSCache :=
  { entries := [], next_id := 0 }

/-- The `ValidityState` constructor: reject a non-element, return the
cached instance when present, otherwise allocate a fresh instance and
cache it. -/
def ValidityState_new (c : Control) (st : VSCache) : Except String (Nat × VSCache) :=
  if ! c.html_element then
    .error "cannot create a ValidityState for a non-element"
  else
    match st.entries.lookup c.ctrl_id with
    | some inst => .ok (inst, st)
    | none =>
      .ok (st.next_id,
           { entries := (c.ctrl_id, st.next_id) :: st.entries,
             next_id := st.next_id + 1 })

/-- The customError verdict as a function of the control and the
message-store entry it reads: a registered validator explicitly
failed, or the store already holds a non-empty custom-marked message. -/
def customError_bit (c : Control) (st : Option Msg) : Bool :=
  first_explicit_false c.custom_validators ||
    ((st.getD { text := "", is_custom := false }).text != "" &&
      (st.getD { text := "", is_custom := false }).is_custom)

/-- The class list after the unconditional "validated" marking. -/
def validated_classes (c : Control) (s : DomState) : List String :=
  classes_add s.classes (validated_class_of c)

/-- The state produced by an invalid outcome that stored message `m`:
invalid class added, valid class removed, `aria-invalid` set. -/
def invalid_outcome (c : Control) (s : DomState) (m : String) : DomState :=
  { store := some { text := m, is_custom := false },
    classes := classes_remove (classes_add (validated_classes c s) (invalid_class_of c))
                 (valid_class_of c),
    aria_invalid := some "true" }

/-- The state produced by an invalid outcome that wrote nothing (the
`customError` short-circuit): the store entry is whatever was there. -/
def invalid_keep_outcome (c : Control) (s : DomState) : DomState :=
  { store := s.store,
    classes := classes_remove (classes_add (validated_classes c s) (invalid_class_of c))
                 (valid_class_of c),
    aria_invalid := some "true" }

/-- The state produced by a valid outcome: store cleared, invalid class
removed, valid class added, `aria-invalid` cleared. -/
def valid_outcome (c : Control) (s : DomState) : DomState :=
  { store := none,
    classes := classes_add (classes_remove (validated_classes c s) (invalid_class_of c))
                 (valid_class_of c),
    aria_invalid := some "false" }

/-- A baseline control: an `HTMLElement` validation candidate whose
constraint predicates all pass, with no custom validators and no
wrapper configuration. -/
def cBase : Control :=
  { html_element := true, ctrl_id := 7,
    test_bad_input := true, test_pattern := true, test_max := true,
    test_min := true, test_step := true, test_maxlength := true,
    test_minlength := true, test_type := true, test_required := true,
    custom_validators := [], ctrl_type := "text", title := "",
    attr_min := none, attr_max := none, attr_maxlength := none,
    attr_minlength := none, value := "", has_multiple := false,
    is_select := false, next_valid := (none, none),
    is_validation_candidate := true, wrapper := none }

/-- A pristine DOM state: no stored message, no classes, no
`aria-invalid` attribute. -/
def dom0 : DomState :=
  { store := none, classes := [], aria_invalid := none }

/-- A DOM state holding a leftover non-custom message. -/
def dom1 : DomState :=
  { store := some { text := "leftover", is_custom := false },
    classes := [], aria_invalid := none }

/-- A control violating both the required and the maxlength
constraints, everything else passing. -/
def c1ctrl : Control :=
  { cBase with test_required := false, test_maxlength := false,
               attr_maxlength := some "5", value := "abcdefghi" }

/-- A number-typed control with `min="5"` and `max="9"` whose min
predicate fails. -/
def c2ctrl : Control :=
  { cBase with test_min := false, ctrl_type := "number",
               attr_min := some "5", attr_max := some "9", value := "3" }

/-- A control with `minlength="5"`, no `maxlength`, and a two-character
value, whose minlength predicate fails. -/
def c3ctrl : Control :=
  { cBase with test_minlength := false,
               attr_minlength := some "5", value := "ab" }

/-- A non-candidate control with a failing `required` predicate. -/
def c6ctrl : Control :=
  { cBase with is_validation_candidate := false, test_required := false }

/-- `first_explicit_false` finds an explicit `false` exactly when the
validator result list contains one. -/
theorem first_explicit_false_eq_true_iff (l : List (Option Bool)) :
    first_explicit_false l = true ↔ some false ∈ l := by
  induction l with
  | nil => simp [first_explicit_false]
  | cons r rest ih =>
    match r with
    | none => simp [first_explicit_false, ih]
    | some true => simp [first_explicit_false, ih]
    | some false => simp [first_explicit_false]

/-- The `customError` checker's verdict is `customError_bit` of the
store entry. -/
theorem customError_fst (c : Control) (s : DomState) :
    (customError c s).1 = customError_bit c s.store := by
  cases hcf : first_explicit_false c.custom_validators <;>
    cases hflag : ((message_store_get s).text != "" && (message_store_get s).is_custom) <;>
      simp only [customError, customError_bit, message_store_get] at hflag ⊢ <;>
        simp [hcf, hflag]

/-- The `customError` checker never writes. -/
theorem customError_snd (c : Control) (s : DomState) :
    (customError c s).2 = s :=
  rfl

/-- Characterization of the `for..in` loop of the `valid` getter: the
explicit short-circuit chain over the ten checkers in fixed order. -/
theorem run_checkers_eq (c : Control) (s : DomState) :
    run_checkers c checker_order s =
      if ! c.test_bad_input then (true, message_store_set s badInput_message)
      else if customError_bit c s.store then (true, s)
      else if ! c.test_pattern then (true, message_store_set s (patternMismatch_message c))
      else if ! c.test_max then (true, message_store_set s (rangeOverflow_message c))
      else if ! c.test_min then (true, message_store_set s (rangeUnderflow_message c))
      else if ! c.test_step then (true, message_store_set s (stepMismatch_message c))
      else if ! c.test_maxlength then (true, message_store_set s (tooLong_message c))
      else if ! c.test_minlength then (true, message_store_set s (tooShort_message c))
      else if ! c.test_type then (true, message_store_set s (typeMismatch_message c))
      else if ! c.test_required then (true, message_store_set s (valueMissing_message c))
      else (false, s) := by
  cases hbi : c.test_bad_input
  · simp [run_checkers, checker_order, badInput, hbi]
  · cases hce : customError_bit c s.store
    · cases hpat : c.test_pattern
      · simp [run_checkers, checker_order, badInput, customError_fst, customError_snd,
              patternMismatch, hbi, hce, hpat]
      · cases hmax : c.test_max
        · simp [run_checkers, checker_order, badInput, customError_fst, customError_snd,
                patternMismatch, rangeOverflow, hbi, hce, hpat, hmax]
        · cases hmin : c.test_min
          · simp [run_checkers, checker_order, badInput, customError_fst, customError_snd,
                  patternMismatch, rangeOverflow, rangeUnderflow, hbi, hce, hpat, hmax, hmin]
          · cases hstep : c.test_step
            · simp [run_checkers, checker_order, badInput, customError_fst, customError_snd,
                    patternMismatch, rangeOverflow, rangeUnderflow, stepMismatch,
                    hbi, hce, hpat, hmax, hmin, hstep]
            · cases hmaxl : c.test_maxlength
              · simp [run_checkers, checker_order, badInput, customError_fst, customError_snd,
                      patternMismatch, rangeOverflow, rangeUnderflow, stepMismatch, tooLong,
                      hbi, hce, hpat, hmax, hmin, hstep, hmaxl]
              · cases hminl : c.test_minlength
                · simp [run_checkers, checker_order, badInput, customError_fst, customError_snd,
                        patternMismatch, rangeOverflow, rangeUnderflow, stepMismatch, tooLong,
                        tooShort, hbi, hce, hpat, hmax, hmin, hstep, hmaxl, hminl]
                · cases hty : c.test_type
                  · simp [run_checkers, checker_order, badInput, customError_fst, customError_snd,
                          patternMismatch, rangeOverflow, rangeUnderflow, stepMismatch, tooLong,
                          tooShort, typeMismatch, hbi, hce, hpat, hmax, hmin, hstep, hmaxl, hminl, hty]
                  · cases hreq : c.test_required
                    · simp [run_checkers, checker_order, badInput, customError_fst, customError_snd,
                            patternMismatch, rangeOverflow, rangeUnderflow, stepMismatch, tooLong,
                            tooShort, typeMismatch, valueMissing, hbi, hce, hpat, hmax, hmin,
                            hstep, hmaxl, hminl, hty, hreq]
                    · simp [run_checkers, checker_order, badInput, customError_fst, customError_snd,
                            patternMismatch, rangeOverflow, rangeUnderflow, stepMismatch, tooLong,
                            tooShort, typeMismatch, valueMissing, hbi, hce, hpat, hmax, hmin,
                            hstep, hmaxl, hminl, hty, hreq]
    · simp [run_checkers, checker_order, badInput, customError_fst, customError_snd, hbi, hce]

/-- Full characterization of the `valid` getter as an explicit
short-circuit chain with its three outcome shapes. -/
theorem valid_get_eq (c : Control) (s : DomState) :
    valid_get c s =
      if ! c.is_validation_candidate then (true, valid_outcome c s)
      else if ! c.test_bad_input then (false, invalid_outcome c s badInput_message)
      else if customError_bit c s.store then (false, invalid_keep_outcome c s)
      else if ! c.test_pattern then (false, invalid_outcome c s (patternMismatch_message c))
      else if ! c.test_max then (false, invalid_outcome c s (rangeOverflow_message c))
      else if ! c.test_min then (false, invalid_outcome c s (rangeUnderflow_message c))
      else if ! c.test_step then (false, invalid_outcome c s (stepMismatch_message c))
      else if ! c.test_maxlength then (false, invalid_outcome c s (tooLong_message c))
      else if ! c.test_minlength then (false, invalid_outcome c s (tooShort_message c))
      else if ! c.test_type then (false, invalid_outcome c s (typeMismatch_message c))
      else if ! c.test_required then (false, invalid_outcome c s (valueMissing_message c))
      else (true, valid_outcome c s) := by
  cases hcand : c.is_validation_candidate
  · simp [valid_get, hcand, valid_outcome, validated_classes, message_store_delete]
  · cases hbi : c.test_bad_input
    · simp [valid_get, run_checkers_eq, hcand, hbi, invalid_outcome, validated_classes,
            message_store_set]
    · cases hce : customError_bit c s.store
      · cases hpat : c.test_pattern
        · simp [valid_get, run_checkers_eq, hcand, hbi, hce, hpat, invalid_outcome,
                validated_classes, message_store_set]
        · cases hmax : c.test_max
          · simp [valid_get, run_checkers_eq, hcand, hbi, hce, hpat, hmax, invalid_outcome,
                  validated_classes, message_store_set]
          · cases hmin : c.test_min
            · simp [valid_get, run_checkers_eq, hcand, hbi, hce, hpat, hmax, hmin,
                    invalid_outcome, validated_classes, message_store_set]
            · cases hstep : c.test_step
              · simp [valid_get, run_checkers_eq, hcand, hbi, hce, hpat, hmax, hmin, hstep,
                      invalid_outcome, validated_classes, message_store_set]
              · cases hmaxl : c.test_maxlength
                · simp [valid_get, run_checkers_eq, hcand, hbi, hce, hpat, hmax, hmin, hstep,
                        hmaxl, invalid_outcome, validated_classes, message_store_set]
                · cases hminl : c.test_minlength
                  · simp [valid_get, run_checkers_eq, hcand, hbi, hce, hpat, hmax, hmin, hstep,
                          hmaxl, hminl, invalid_outcome, validated_classes, message_store_set]
                  · cases hty : c.test_type
                    · simp [valid_get, run_checkers_eq, hcand, hbi, hce, hpat, hmax, hmin,
                            hstep, hmaxl, hminl, hty, invalid_outcome, validated_classes,
                            message_store_set]
                    · cases hreq : c.test_required
                      · simp [valid_get, run_checkers_eq, hcand, hbi, hce, hpat, hmax, hmin,
                              hstep, hmaxl, hminl, hty, hreq, invalid_outcome,
                              validated_classes, message_store_set]
                      · simp [valid_get, run_checkers_eq, hcand, hbi, hce, hpat, hmax, hmin,
                              hstep, hmaxl, hminl, hty, hreq, valid_outcome,
                              validated_classes, message_store_delete]
      · simp [valid_get, run_checkers_eq, hcand, hbi, hce, invalid_keep_outcome,
              validated_classes]

/-- All ten checkers report no failure exactly when the nine structural
predicates pass and the customError verdict is clean. -/
theorem all_checkers_pass_iff (c : Control) (s : DomState) :
    (∀ ch ∈ checker_order, (ch c s).1 = false) ↔
      (c.test_bad_input = true ∧ customError_bit c s.store = false ∧
       c.test_pattern = true ∧ c.test_max = true ∧ c.test_min = true ∧
       c.test_step = true ∧ c.test_maxlength = true ∧ c.test_minlength = true ∧
       c.test_type = true ∧ c.test_required = true) := by
  simp only [checker_order, List.mem_cons, List.not_mem_nil, or_false, forall_eq_or_imp,
             forall_eq, badInput, customError_fst, patternMismatch, rangeOverflow,
             rangeUnderflow, stepMismatch, tooLong, tooShort, typeMismatch, valueMissing]
  simp [and_assoc]

/-- Store projection of an invalid outcome that wrote `m`. -/
theorem invalid_outcome_store (c : Control) (s : DomState) (m : String) :
    (invalid_outcome c s m).store = some { text := m, is_custom := false } :=
  rfl

/-- Store projection of the writeless invalid outcome. -/
theorem invalid_keep_outcome_store (c : Control) (s : DomState) :
    (invalid_keep_outcome c s).store = s.store :=
  rfl

/-- Store projection of the valid outcome. -/
theorem valid_outcome_store (c : Control) (s : DomState) :
    (valid_outcome c s).store = none :=
  rfl

/-- With no stored message the customError verdict reduces to the
validator scan. -/
theorem customError_bit_none (c : Control) :
    customError_bit c none = first_explicit_false c.custom_validators := by
  simp [customError_bit]

/-- With a checker-written (non-custom) stored message the customError
verdict reduces to the validator scan. -/
theorem customError_bit_noncustom (c : Control) (m : String) :
    customError_bit c (some { text := m, is_custom := false }) =
      first_explicit_false c.custom_validators := by
  simp [customError_bit]

/-- A clean customError verdict implies a clean validator scan. -/
theorem first_false_of_bit_false (c : Control) (st : Option Msg)
    (h : customError_bit c st = false) :
    first_explicit_false c.custom_validators = false := by
  simp [customError_bit] at h
  exact h.1

/-- The character data of a formatted message: the template's characters
followed by the parenthesized argument rendering. -/
theorem sprintf_data (t : String) (args : List String) :
    (sprintf t args).data =
      t.data ++ ('(' :: ((String.intercalate ", " args).data ++ [')'])) := by
  simp [sprintf, String.data_append]

/-- The tooLong message (which begins with the `TextTooLong` template)
is never equal to any of the six valueMissing messages. -/
theorem tooLong_message_ne_valueMissing_message (c : Control) :
    tooLong_message c ≠ valueMissing_message c := by
  intro h
  have hd : (tooLong_message c).data = (valueMissing_message c).data := by rw [h]
  rw [tooLong_message, sprintf_data] at hd
  have ht : (translate "TextTooLong").data = 'T' :: "extTooLong".data := rfl
  rw [ht] at hd
  unfold valueMissing_message translate at hd
  split_ifs at hd <;> simp_all

/-- C1 counterexample: at a concrete control violating both the
required and the maxlength constraints (and nothing else), reading
`valid` leaves the tooLong message in the store — which is not the
valueMissing message — because tooLong precedes valueMissing in the
fixed evaluation order. -/
theorem valid_read_leaves_tooLong_not_valueMissing :
    (valid_get c1ctrl dom0).2.store =
      some { text := tooLong_message c1ctrl, is_custom := false } ∧
    (valid_get c1ctrl dom0).2.store ≠
      some { text := valueMissing_message c1ctrl, is_custom := false } := by
  constructor
  · decide
  · decide

/-- C1 (amended): for every validation candidate whose valueMissing and
tooLong predicates both fail while all earlier facets pass, reading
`valid` short-circuits at tooLong (the earlier facet in the fixed
evaluation order), so the store entry left behind is tooLong's message,
never valueMissing's. -/
theorem valid_read_short_circuits_at_tooLong (c : Control) (s : DomState)
    (hcand : c.is_validation_candidate = true)
    (hreq : c.test_required = false)
    (hmaxl : c.test_maxlength = false)
    (hbi : c.test_bad_input = true)
    (hce : customError_bit c s.store = false)
    (hpat : c.test_pattern = true)
    (hmax : c.test_max = true)
    (hmin : c.test_min = true)
    (hstep : c.test_step = true) :
    (valid_get c s).1 = false ∧
    (valid_get c s).2.store =
      some { text := tooLong_message c, is_custom := false } ∧
    (valid_get c s).2.store ≠
      some { text := valueMissing_message c, is_custom := false } := by
  rw [valid_get_eq]
  simp [hcand, hbi, hce, hpat, hmax, hmin, hstep, hmaxl, invalid_outcome_store,
        tooLong_message_ne_valueMissing_message]

/-- C1 (amended) witness: the short-circuit at the concrete control. -/
theorem valid_read_short_circuits_at_tooLong_witness :
    (valid_get c1ctrl dom0).1 = false ∧
    (valid_get c1ctrl dom0).2.store =
      some { text := tooLong_message c1ctrl, is_custom := false } ∧
    (valid_get c1ctrl dom0).2.store ≠
      some { text := valueMissing_message c1ctrl, is_custom := false } :=
  valid_read_short_circuits_at_tooLong c1ctrl dom0 (by decide) (by decide) (by decide)
    (by decide) (by decide) (by decide) (by decide) (by decide) (by decide)

/-- C2: at a number-typed control with `min="5"` and `max="9"` whose min
predicate fails, the rangeUnderflow checker reports failure and stores
the message rendering the `max` attribute (`9`), not the `min`
attribute (`5`) the specification calls for. -/
theorem rangeUnderflow_renders_max_attribute :
    (rangeUnderflow c2ctrl dom0).1 = true ∧
    (rangeUnderflow c2ctrl dom0).2.store =
      some { text := sprintf (translate "NumberRangeUnderflow")
                       [string_to_number c2ctrl.attr_max c2ctrl.ctrl_type],
             is_custom := false } ∧
    (rangeUnderflow c2ctrl dom0).2.store ≠
      some { text := sprintf (translate "NumberRangeUnderflow")
                       [string_to_number c2ctrl.attr_min c2ctrl.ctrl_type],
             is_custom := false } := by
  refine ⟨by decide, by decide, by decide⟩

/-- C3: at a control with `minlength="5"`, no `maxlength`, and value
`"ab"` whose minlength predicate fails, the tooShort checker reports
failure and stores the message citing the absent `maxlength` attribute
(rendered `null`), not the declared `minlength` bound `5`. -/
theorem tooShort_cites_maxlength_attribute :
    (tooShort c3ctrl dom0).1 = true ∧
    (tooShort c3ctrl dom0).2.store =
      some { text := sprintf (translate "Please lengthen this text to %l characters or more (you are currently using %l characters).")
                       [c3ctrl.attr_maxlength.getD "null",
                        toString (unicode_string_length c3ctrl.value)],
             is_custom := false } ∧
    (tooShort c3ctrl dom0).2.store ≠
      some { text := sprintf (translate "Please lengthen this text to %l characters or more (you are currently using %l characters).")
                       [c3ctrl.attr_minlength.getD "null",
                        toString (unicode_string_length c3ctrl.value)],
             is_custom := false } := by
  refine ⟨by decide, by decide, by decide⟩

/-- C4: reading the aggregate `valid` facet returns `true` iff the
control is not a validation candidate or every one of the ten facet
checkers reports no failure (evaluated against the state being read). -/
theorem valid_true_iff_not_candidate_or_all_pass (c : Control) (s : DomState) :
    (valid_get c s).1 = true ↔
      (c.is_validation_candidate = false ∨
        ∀ ch ∈ checker_order, (ch c s).1 = false) := by
  rw [valid_get_eq, all_checkers_pass_iff]
  cases hcand : c.is_validation_candidate
  · simp [hcand]
  · cases hbi : c.test_bad_input
    · simp [hcand, hbi]
    · cases hce : customError_bit c s.store
      · cases hpat : c.test_pattern
        · simp [hcand, hbi, hce, hpat]
        · cases hmax : c.test_max
          · simp [hcand, hbi, hce, hpat, hmax]
          · cases hmin : c.test_min
            · simp [hcand, hbi, hce, hpat, hmax, hmin]
            · cases hstep : c.test_step
              · simp [hcand, hbi, hce, hpat, hmax, hmin, hstep]
              · cases hmaxl : c.test_maxlength
                · simp [hcand, hbi, hce, hpat, hmax, hmin, hstep, hmaxl]
                · cases hminl : c.test_minlength
                  · simp [hcand, hbi, hce, hpat, hmax, hmin, hstep, hmaxl, hminl]
                  · cases hty : c.test_type
                    · simp [hcand, hbi, hce, hpat, hmax, hmin, hstep, hmaxl, hminl, hty]
                    · cases hreq : c.test_required
                      · simp [hcand, hbi, hce, hpat, hmax, hmin, hstep, hmaxl, hminl, hty, hreq]
                      · simp [hcand, hbi, hce, hpat, hmax, hmin, hstep, hmaxl, hminl, hty, hreq]
      · simp [hcand, hbi, hce]

/-- C5: the customError facet reports invalid iff some registered
validator returned an explicit `false` (scanned in registration order,
`undefined` results skipped), or no validator failed but the store
already holds a non-empty message carrying the custom marker. -/
theorem customError_invalid_iff (c : Control) (s : DomState) :
    (customError c s).1 = true ↔
      ((some false) ∈ c.custom_validators ∨
        ((some false) ∉ c.custom_validators ∧
          ∃ m, s.store = some m ∧ m.text ≠ "" ∧ m.is_custom = true)) := by
  rw [customError_fst]
  cases hst : s.store with
  | none => simp [customError_bit, first_explicit_false_eq_true_iff]
  | some m =>
    simp [customError_bit, first_explicit_false_eq_true_iff]
    tauto

/-- C6: a control that is not a validation candidate reads as valid
regardless of its predicates, and the read clears its message-store
entry. -/
theorem non_candidate_always_valid (c : Control) (s : DomState)
    (h : c.is_validation_candidate = false) :
    (valid_get c s).1 = true ∧ (valid_get c s).2.store = none := by
  simp [valid_get, h, message_store_delete]

/-- C6 witness: the exemption at a concrete non-candidate control with
a failing predicate and a leftover stored message. -/
theorem non_candidate_always_valid_witness :
    (valid_get c6ctrl dom1).1 = true ∧ (valid_get c6ctrl dom1).2.store = none :=
  non_candidate_always_valid c6ctrl dom1 (by rfl)

/-- C7: once the constructor succeeds and returns instance `v` with
cache `st2`, invoking it again for the same control returns the same
instance `v` and leaves the cache unchanged. -/
theorem validityState_single_instance (c : Control) (st st2 : VSCache) (v : Nat)
    (h : ValidityState_new c st = .ok (v, st2)) :
    ValidityState_new c st2 = .ok (v, st2) := by
  unfold ValidityState_new at h ⊢
  cases hel : c.html_element
  · simp [hel] at h
  · simp only [hel, Bool.not_true, Bool.false_eq_true, if_false] at h ⊢
    cases hl : st.entries.lookup c.ctrl_id with
    | some inst =>
      rw [hl] at h
      cases h
      simp [hl]
    | none =>
      rw [hl] at h
      cases h
      simp [List.lookup]

/-- C7 witness: constructing for the baseline control from the empty
cache and then constructing again yields the same instance `0`. -/
theorem validityState_single_instance_witness :
    ValidityState_new cBase { entries := [(7, 0)], next_id := 1 } =
      .ok (0, { entries := [(7, 0)], next_id := 1 }) :=
  validityState_single_instance cBase VSCache.empty
    { entries := [(7, 0)], next_id := 1 } 0 (by rfl)

/-- C8: constructing a validity state for an argument that is not an
`HTMLElement` raises the descriptive error instead of returning a
state. -/
theorem validityState_new_rejects_non_element (c : Control) (st : VSCache)
    (h : c.html_element = false) :
    ValidityState_new c st =
      .error "cannot create a ValidityState for a non-element" := by
  simp [ValidityState_new, h]

/-- C8 witness: the rejection at a concrete non-element argument. -/
theorem validityState_new_rejects_non_element_witness :
    ValidityState_new { cBase with html_element := false } VSCache.empty =
      .error "cannot create a ValidityState for a non-element" :=
  validityState_new_rejects_non_element { cBase with html_element := false }
    VSCache.empty (by rfl)

/-- C9: reading `valid` twice in a row, with no change to the control,
its attributes or its custom validators, yields the same boolean both
times and leaves the same message-store entry both times. -/
theorem valid_read_idempotent (c : Control) (s : DomState) :
    (valid_get c (valid_get c s).2).1 = (valid_get c s).1 ∧
    (valid_get c (valid_get c s).2).2.store = (valid_get c s).2.store := by
  simp only [valid_get_eq]
  cases hcand : c.is_validation_candidate
  · simp [hcand, valid_outcome_store]
  · cases hbi : c.test_bad_input
    · simp [hcand, hbi, invalid_outcome_store]
    · cases hce : customError_bit c s.store
      · have hff := first_false_of_bit_false c s.store hce
        cases hpat : c.test_pattern
        · simp [hcand, hbi, hce, hpat, invalid_outcome_store, customError_bit_noncustom, hff]
        · cases hmax : c.test_max
          · simp [hcand, hbi, hce, hpat, hmax, invalid_outcome_store,
                  customError_bit_noncustom, hff]
          · cases hmin : c.test_min
            · simp [hcand, hbi, hce, hpat, hmax, hmin, invalid_outcome_store,
                    customError_bit_noncustom, hff]
            · cases hstep : c.test_step
              · simp [hcand, hbi, hce, hpat, hmax, hmin, hstep, invalid_outcome_store,
                      customError_bit_noncustom, hff]
              · cases hmaxl : c.test_maxlength
                · simp [hcand, hbi, hce, hpat, hmax, hmin, hstep, hmaxl,
                        invalid_outcome_store, customError_bit_noncustom, hff]
                · cases hminl : c.test_minlength
                  · simp [hcand, hbi, hce, hpat, hmax, hmin, hstep, hmaxl, hminl,
                          invalid_outcome_store, customError_bit_noncustom, hff]
                  · cases hty : c.test_type
                    · simp [hcand, hbi, hce, hpat, hmax, hmin, hstep, hmaxl, hminl, hty,
                            invalid_outcome_store, customError_bit_noncustom, hff]
                    · cases hreq : c.test_required
                      · simp [hcand, hbi, hce, hpat, hmax, hmin, hstep, hmaxl, hminl, hty,
                              hreq, invalid_outcome_store, customError_bit_noncustom, hff]
                      · simp [hcand, hbi, hce, hpat, hmax, hmin, hstep, hmaxl, hminl, hty,
                              hreq, valid_outcome_store, customError_bit_none, hff]
      · simp [hcand, hbi, hce, invalid_keep_outcome_store]

/-- C10: each individual facet getter leaves the class list and the
`aria-invalid` attribute untouched, and leaves the message-store entry
untouched whenever it reports no failure. -/
theorem facet_getters_touch_only_store (c : Control) (s : DomState) :
    ∀ ch ∈ checker_order,
      (ch c s).2.classes = s.classes ∧
      (ch c s).2.aria_invalid = s.aria_invalid ∧
      ((ch c s).1 = false → (ch c s).2.store = s.store) := by
  intro ch hch
  simp only [checker_order, List.mem_cons, List.not_mem_nil, or_false] at hch
  rcases hch with rfl | rfl | rfl | rfl | rfl | rfl | rfl | rfl | rfl | rfl <;>
    refine ⟨?_, ?_, ?_⟩ <;>
    simp only [badInput, customError, patternMismatch, rangeOverflow, rangeUnderflow,
               stepMismatch, tooLong, tooShort, typeMismatch, valueMissing] <;>
    (try intro h) <;>
    (try split) <;>
    simp_all [message_store_set]

/-- C10 witness: the frame condition at the `valueMissing` getter on a
concrete failing control and a concrete state. -/
theorem facet_getters_touch_only_store_witness :
    (valueMissing c6ctrl dom1).2.classes = dom1.classes ∧
    (valueMissing c6ctrl dom1).2.aria_invalid = dom1.aria_invalid ∧
    ((valueMissing c6ctrl dom1).1 = false →
      (valueMissing c6ctrl dom1).2.store = dom1.store) :=
  facet_getters_touch_only_store c6ctrl dom1 valueMissing (by simp [checker_order])

end Hyperform
